import Mathlib

/-!
Shallow embedding of the aoSystem application (`aoSystem.cpp`).

The application composes external mxlib services (the aoSystem analysis
object, the Fourier temporal PSD engine, gain optimizers, FITS I/O).  Those
services are opaque to this file: they are passed in as explicit function
parameters (`ErrorFns`, `TemporalFns`, `Presets`), so every theorem below
quantifies over them.  The application-level control flow — configuration
loading and its dispatches, precondition guards, mode dispatch, the
error-budget sweep, and output shapes — is translated directly from the
source.  Real values are modelled as exact rationals.
-/

/-- The PSD component selector (`mx::AO::analysis::PSDComponent`). -/
inductive PSDComponent
  | phase
  | amplitude
  | dispPhase
  | dispAmplitude
deriving DecidableEq

/-- The active WFS variant (`idealWFS` / `unmodPyWFS` / `asympModPyWFS`
members selected by `aosys.wfsBeta`). -/
inductive WFSType
  | ideal
  | unmodPyWFS
  | asympModPyWFS
deriving DecidableEq

/-- The slice of the mxlib `aosys` object state that the application reads
and writes (`aosys.D()`, `aosys.starMag(...)`, …). -/
structure AOSys where
  D : ℚ
  d_min : ℚ
  F0 : ℚ
  lam_wfs : ℚ
  npix_wfs : ℚ
  ron_wfs : ℚ
  Fbg : ℚ
  minTauWFS : ℚ
  tauWFS : ℚ
  deltaTau : ℚ
  lam_sci : ℚ
  zeta : ℚ
  fit_mn_max : ℚ
  ncp_wfe : ℚ
  ncp_alpha : ℚ
  starMag : ℚ
  subTipTilt : Bool
  scintillation : Bool
  component : PSDComponent
  wfsType : WFSType
deriving DecidableEq

/-- The application object's own member state (`mxAOSystem_app` members). -/
structure AppState where
  aosys : AOSys
  lam_0 : ℚ
  dumpSetup : Bool
  setupOutName : String
  mode : String
  wfeUnits : String
  mnMap : ℤ
  starMags : List ℚ
  dfreq : ℚ
  fmax : ℚ
  k_m : ℚ
  k_n : ℚ
  gridDir : String
  subDir : String
  lpNc : ℤ
  uncontrolledLifetimes : Bool
  lifetimeTrials : ℤ
  writePSDs : Bool
deriving DecidableEq

/-- C++ float-to-int conversion truncates toward zero
(`int mnCon = aosys.D()/aosys.d_min()/2;`). -/
def ratTrunc (q : ℚ) : ℤ := if 0 ≤ q then ⌊q⌋ else -⌊-q⌋

/-- Modelled from the spec: mxlib's `mx::math::vectorScale`, which is not
part of this repository, builds the temporal frequency grid.  The spec
states the routine "computes an open-loop temporal PSD on a uniform
frequency grid [0, Nyquist] at a configured spacing" with the grid
"ascending, uniform spacing".  We therefore model the grid as the multiples
of the spacing `df` from 0 up to the Nyquist frequency `nyq`; the point
count matches the `0.5*fs/dfreq` argument passed at the call site. -/
def specFreqGrid (nyq df : ℚ) : List ℚ :=
  (List.range ((⌊nyq / df⌋).toNat + 1)).map (fun i : ℕ => (i : ℚ) * df)

/-- The opaque mxlib collaborators used by the temporal-PSD routines
(`fourierTemporalPSD`, `wfsNoisePSD`, `clGainOpt`, `clAOLinearPredictor`).
Each field's arguments mirror the corresponding call site in the source. -/
structure TemporalFns where
  multiLayerPSD : AOSys → List ℚ → ℚ → ℚ → ℚ → ℚ → List ℚ
  beta_p : AOSys → ℚ → ℚ → ℚ
  Fg : AOSys → ℚ
  wfsNoisePSD : ℕ → ℚ → ℚ → ℚ → ℚ → ℚ → ℚ → List ℚ
  optGainOpenLoop : ℚ → ℚ → List ℚ → List ℚ → List ℚ → ℚ → ℚ × ℚ
  regularizeCoefficients : ℚ → ℚ → List ℚ → List ℚ → List ℚ → ℤ → ℚ × ℚ × ℚ
  clTF2 : ℚ → ℚ → List ℚ → ℕ → ℚ → ℚ × ℚ
  makePSDGrid : AOSys → String → ℚ → ℚ → ℚ → ℚ → List String
  analyzePSDGrid : AOSys → String → String → ℚ → ℤ → ℤ → List ℚ → ℤ → Bool → Bool → ℤ

/-- One data row printed by `temporalPSD`
(`freq[i] psdOL[i] psdN[i] ETF_SI NTF_SI ETF_LP NTF_LP`). -/
structure TPSDRow where
  freq : ℚ
  psdOL : ℚ
  psdN : ℚ
  etfSI : ℚ
  ntfSI : ℚ
  etfLP : ℚ
  ntfLP : ℚ
deriving DecidableEq

/-- The output of a successful `temporalPSD` run: the frequency grid, the
header statistics, and the data rows. -/
structure TPSDResult where
  freq : List ℚ
  goptSI : ℚ
  varSI : ℚ
  goptLP : ℚ
  varLP : ℚ
  rows : List TPSDRow
deriving DecidableEq

/-- Outcome of `temporalPSD`: a guard failure (return value and stderr
message, nothing printed to stdout) or a completed run. -/
inductive TPSDOutcome
  | fail (rv : ℤ) (msg : String)
  | success (r : TPSDResult)
deriving DecidableEq

/-- The `int` return value of `temporalPSD` (0 on the success path). -/
def TPSDOutcome.rv : TPSDOutcome → ℤ
  | .fail r _ => r
  | .success _ => 0

/-- The frequency grid computed by the run (empty if a guard failed). -/
def TPSDOutcome.freqGrid : TPSDOutcome → List ℚ
  | .fail _ _ => []
  | .success r => r.freq

/-- `mxAOSystem_app::temporalPSD` (aoSystem.cpp lines 1064-1142): guard
checks, frequency-grid construction, open-loop and noise PSDs, single
integrator optimization, optional linear-predictor optimization (only when
`lpNc > 1`), and the output rows. -/
def temporalPSD (fns : TemporalFns) (st : AppState) : TPSDOutcome :=
  if st.aosys.minTauWFS ≤ 0 then
    .fail (-1) "temporalPSD: You must set minTauWFS to be > 0 to specify loop frequency."
  else if st.dfreq ≤ 0 then
    .fail (-1) "temporalPSD: You must set dfreq to be > 0 to specify frequency sampling."
  else
    let fs : ℚ := 1 / st.aosys.minTauWFS
    let freq := specFreqGrid (1/2 * fs) st.dfreq
    let psdOL := fns.multiLayerPSD st.aosys freq st.k_m st.k_n 1 st.fmax
    let psdN := fns.wfsNoisePSD freq.length (fns.beta_p st.aosys st.k_m st.k_n)
      (fns.Fg st.aosys) (1 / fs) st.aosys.npix_wfs st.aosys.Fbg st.aosys.ron_wfs
    let si := fns.optGainOpenLoop (1 / fs) (3/2 / fs) freq psdOL psdN 0
    let goptSI := si.1
    let varSI := si.2
    let lp : ℚ × ℚ :=
      if 1 < st.lpNc then
        let r := fns.regularizeCoefficients (1 / fs) (3/2 / fs) freq psdOL psdN st.lpNc
        (r.2.1, r.2.2)
      else (-1, -1)
    let goptLP := lp.1
    let varLP := lp.2
    let rows := (List.range freq.length).map (fun i =>
      let siTF := fns.clTF2 (1 / fs) (3/2 / fs) freq i goptSI
      let lpTF : ℚ × ℚ :=
        if goptLP ≠ -1 then fns.clTF2 (1 / fs) (3/2 / fs) freq i goptLP else (-1, -1)
      { freq := freq.getD i 0, psdOL := psdOL.getD i 0, psdN := psdN.getD i 0,
        etfSI := siTF.1, ntfSI := siTF.2, etfLP := lpTF.1, ntfLP := lpTF.2 })
    .success { freq := freq, goptSI := goptSI, varSI := varSI,
               goptLP := goptLP, varLP := varLP, rows := rows }

/-- Outcome of `temporalPSDGrid`: a guard failure (return value and stderr
message, no grid written) or the grid-store write performed by
`makePSDGrid` (its effect trace). -/
inductive GridOutcome
  | fail (rv : ℤ) (msg : String)
  | success (files : List String)
deriving DecidableEq

/-- The `int` return value of `temporalPSDGrid`. -/
def GridOutcome.rv : GridOutcome → ℤ
  | .fail r _ => r
  | .success _ => 0

/-- `mxAOSystem_app::temporalPSDGrid` (aoSystem.cpp lines 1144-1180):
guard checks on `gridDir`, `fit_mn_max`, `dfreq` and `minTauWFS`, then
the grid computation `makePSDGrid(gridDir, fit_mn_max, dfreq, fs, 0)`. -/
def temporalPSDGrid (fns : TemporalFns) (st : AppState) : GridOutcome :=
  if st.gridDir = "" then
    .fail (-1) "temporalPSDGrid: You must set gridDir."
  else if st.aosys.fit_mn_max ≤ 0 then
    .fail (-1) "temporalPSDGrid: You must set fit_mn_max to be > 0."
  else if st.dfreq ≤ 0 then
    .fail (-1) "temporalPSDGrid: You must set dfreq to be > 0 to specify frequency sampling."
  else if st.aosys.minTauWFS ≤ 0 then
    .fail (-1) "temporalPSDGrid: You must set minTauWFS to be > 0 to specify loop frequency."
  else
    let fs : ℚ := 1 / st.aosys.minTauWFS
    .success (fns.makePSDGrid st.aosys st.gridDir st.aosys.fit_mn_max st.dfreq fs 0)

/-- Outcome of `temporalPSDGridAnalyze`: a guard failure, or the call to
`analyzePSDGrid` recording its return value and the star-magnitude list
and controlled-mode cutoff that were passed to it. -/
inductive GridAnalyzeOutcome
  | fail (rv : ℤ) (msg : String)
  | success (rv : ℤ) (mags : List ℚ) (mnCon : ℤ)
deriving DecidableEq

/-- The `int` return value of `temporalPSDGridAnalyze` (on success, the
return value of `analyzePSDGrid`). -/
def GridAnalyzeOutcome.rv : GridAnalyzeOutcome → ℤ
  | .fail r _ => r
  | .success r _ _ => r

/-- `mxAOSystem_app::temporalPSDGridAnalyze` (aoSystem.cpp lines
1182-1222): guard checks on `gridDir`, `subDir` and `fit_mn_max`; the
controlled-mode cutoff `mnCon = D/d_min/2` (C++ int truncation); the star
magnitude list defaulting to the single configured `starMag` when
`starMags` is empty; and the call to `analyzePSDGrid`. -/
def temporalPSDGridAnalyze (fns : TemporalFns) (st : AppState) : GridAnalyzeOutcome :=
  if st.gridDir = "" then
    .fail (-1) "temporalPSDGridAnalyze: You must set gridDir."
  else if st.subDir = "" then
    .fail (-1) "temporalPSDGridAnalyze: You must set subDir."
  else if st.aosys.fit_mn_max ≤ 0 then
    .fail (-1) "temporalPSDGridAnalyze: You must set fit_mn_max to be > 0."
  else
    let mnCon := ratTrunc (st.aosys.D / st.aosys.d_min / 2)
    let mags := if st.starMags = [] then [st.aosys.starMag] else st.starMags
    .success (fns.analyzePSDGrid st.aosys st.subDir st.gridDir st.aosys.fit_mn_max
      mnCon st.lpNc mags st.lifetimeTrials st.uncontrolledLifetimes st.writePSDs)
      mags mnCon

/-- The opaque mxlib error-term/Strehl services used by `ErrorBudget`
(`aosys.measurementError()`, …, `aosys.strehl()`, `aosys.d_opt()`), plus
the numeric services `sqrt` and the constant `pi<realT>()`. -/
structure ErrorFns where
  sqrt : ℚ → ℚ
  pi : ℚ
  measurementError : AOSys → ℚ
  timeDelayError : AOSys → ℚ
  fittingError : AOSys → ℚ
  ncpError : AOSys → ℚ
  chromScintOPDError : AOSys → ℚ
  chromIndexError : AOSys → ℚ
  dispAnisoOPDError : AOSys → ℚ
  strehl : AOSys → ℚ
  d_opt : AOSys → ℚ

/-- One stdout line of `ErrorBudget`: a labelled wavefront-error magnitude
(printed as `sqrt(variance)*units`), the Strehl scalar line (printed
without the units factor), the sweep header row, or one sweep data row. -/
inductive EBLine
  | wfe (label : String) (value : ℚ)
  | strehlLine (value : ℚ)
  | header
  | row (mag dopt meas tdel fit chrScint chrIndex dispAniso ncp strehl : ℚ)
deriving DecidableEq

/-- The star magnitude of a sweep data row, if the line is one. -/
def EBLine.rowMag : EBLine → Option ℚ
  | .row mag _ _ _ _ _ _ _ _ _ => some mag
  | _ => none

/-- The `units` factor of `ErrorBudget`: `lam_sci/(2*pi)/1e-9` when
`wfeUnits == "nm"`, otherwise the initial value 1. -/
def ebUnits (ef : ErrorFns) (sys : AOSys) (wfeUnits : String) : ℚ :=
  if wfeUnits = "nm" then sys.lam_sci / (2 * ef.pi) / (1 / 1000000000) else 1

/-- The star-magnitude sweep loop of `ErrorBudget` (aoSystem.cpp lines
1036-1050): for each magnitude, set `aosys.starMag`, then print one row of
error magnitudes; returns the rows and the final `aosys` state. -/
def ebSweep (ef : ErrorFns) (units : ℚ) : AOSys → List ℚ → List EBLine × AOSys
  | sys, [] => ([], sys)
  | sys, m :: ms =>
      let s := { sys with starMag := m }
      let line := EBLine.row m (ef.d_opt s)
        (ef.sqrt (ef.measurementError s) * units)
        (ef.sqrt (ef.timeDelayError s) * units)
        (ef.sqrt (ef.fittingError s) * units)
        (ef.sqrt (ef.chromScintOPDError s) * units)
        (ef.sqrt (ef.chromIndexError s) * units)
        (ef.sqrt (ef.dispAnisoOPDError s) * units)
        (ef.sqrt (ef.ncpError s) * units)
        (ef.strehl s)
      let rest := ebSweep ef units s ms
      (line :: rest.1, rest.2)

/-- The body of `ErrorBudget` after the units factor has been computed:
either the five scalar lines (no star-magnitude list) or the header plus
the sweep rows.  Returns (stdout lines, final aosys state, return value). -/
def ErrorBudgetU (ef : ErrorFns) (units : ℚ) (starMags : List ℚ) (sys : AOSys) :
    List EBLine × AOSys × ℤ :=
  if starMags = [] then
    ([ .wfe "Measurement" (ef.sqrt (ef.measurementError sys) * units),
       .wfe "Time-delay" (ef.sqrt (ef.timeDelayError sys) * units),
       .wfe "Fitting" (ef.sqrt (ef.fittingError sys) * units),
       .wfe "NCP error" (ef.sqrt (ef.ncpError sys) * units),
       .strehlLine (ef.strehl sys) ], sys, 0)
  else
    let sw := ebSweep ef units sys starMags
    (EBLine.header :: sw.1, sw.2, 0)

/-- `mxAOSystem_app::ErrorBudget` (aoSystem.cpp lines 1013-1054). -/
def ErrorBudget (ef : ErrorFns) (wfeUnits : String) (starMags : List ℚ) (sys : AOSys) :
    List EBLine × AOSys × ℤ :=
  ErrorBudgetU ef (ebUnits ef sys wfeUnits) starMags sys

/-- Multiplies exactly the wavefront-error magnitudes of a line by the
units factor `u`, leaving the star magnitude, `d_opt` and the Strehl value
untouched (the shape of the post-multiplication in the source). -/
def scaleEBLine (u : ℚ) : EBLine → EBLine
  | .wfe l v => .wfe l (v * u)
  | .strehlLine v => .strehlLine v
  | .header => .header
  | .row mag dopt meas tdel fit cs ci da ncp s =>
      .row mag dopt (meas * u) (tdel * u) (fit * u) (cs * u) (ci * u) (da * u) (ncp * u) s

/-- The mode strings recognized by `execute` (aoSystem.cpp lines 620-706). -/
def knownModes : List String :=
  ["C0Raw", "C0Map", "C1Raw", "C1Map", "C2Raw", "C2Map", "C4Raw", "C4Map",
   "C6Raw", "C6Map", "C7Raw", "C7Map", "CAllRaw", "CProfAll",
   "ErrorBudget", "Strehl", "temporalPSD", "temporalPSDGrid", "temporalPSDGridAnalyze"]

/-- The modes whose routines unconditionally return 0 in the source (the
spatial map/profile routines, `ErrorBudget` and `Strehl`). -/
def simpleModes : List String :=
  ["C0Raw", "C0Map", "C1Raw", "C1Map", "C2Raw", "C2Map", "C4Raw", "C4Map",
   "C6Raw", "C6Map", "C7Raw", "C7Map", "CAllRaw", "CProfAll", "ErrorBudget", "Strehl"]

/-- The mode dispatch of `execute`: the selected routine's return value and
the application state after the run (only `ErrorBudget` mutates `aosys`).
The map/profile routines (`C0Raw` … `CProfAll`, `Strehl`) always return 0
in the source; their FITS/stdout effects are outside the claims. -/
def executeCore (tf : TemporalFns) (ef : ErrorFns) (st : AppState) : ℤ × AppState :=
  if st.mode = "C0Raw" then (0, st)
  else if st.mode = "C0Map" then (0, st)
  else if st.mode = "C1Raw" then (0, st)
  else if st.mode = "C1Map" then (0, st)
  else if st.mode = "C2Raw" then (0, st)
  else if st.mode = "C2Map" then (0, st)
  else if st.mode = "C4Raw" then (0, st)
  else if st.mode = "C4Map" then (0, st)
  else if st.mode = "C6Raw" then (0, st)
  else if st.mode = "C6Map" then (0, st)
  else if st.mode = "C7Raw" then (0, st)
  else if st.mode = "C7Map" then (0, st)
  else if st.mode = "CAllRaw" then (0, st)
  else if st.mode = "CProfAll" then (0, st)
  else if st.mode = "ErrorBudget" then
    let r := ErrorBudget ef st.wfeUnits st.starMags st.aosys
    (r.2.2, { st with aosys := r.2.1 })
  else if st.mode = "Strehl" then (0, st)
  else if st.mode = "temporalPSD" then ((temporalPSD tf st).rv, st)
  else if st.mode = "temporalPSDGrid" then ((temporalPSDGrid tf st).rv, st)
  else if st.mode = "temporalPSDGridAnalyze" then ((temporalPSDGridAnalyze tf st).rv, st)
  else (-1, st)

/-- The result of `execute`: return value, final state, and whether the
configuration-summary file was written (`dumpSetup && rv == 0`). -/
structure ExecResult where
  rv : ℤ
  st : AppState
  dumped : Bool
deriving DecidableEq

/-- `mxAOSystem_app::execute` (aoSystem.cpp lines 620-721): mode dispatch,
unknown mode returns -1, and the summary dump gated on `dumpSetup && rv == 0`. -/
def execute (tf : TemporalFns) (ef : ErrorFns) (st : AppState) : ExecResult :=
  { rv := (executeCore tf ef st).1,
    st := (executeCore tf ef st).2,
    dumped := st.dumpSetup && ((executeCore tf ef st).1 == 0) }

/-- The configuration source as `loadConfig` sees it: each key either was
set (carrying its resolved value) or was not (`none`, in which case the
target variable keeps its prior value — the semantics of `config(x,"key")`
and `config.isSet`).  `unusedConfigs`/`nonOptions` drive the trailing
warnings.  Atmosphere layer vectors flow into the external `aosys.atm`
object, which is not part of the state the claims read, and are elided. -/
structure ConfigInput where
  mode : Option String := none
  wfeUnits : Option String := none
  mnMap : Option ℤ := none
  model : Option String := none
  lam_0 : Option ℚ := none
  subTipTilt : Option Bool := none
  scintillation : Option Bool := none
  component : Option String := none
  wfs : Option String := none
  D : Option ℚ := none
  d_min : Option ℚ := none
  npix_wfs : Option ℚ := none
  ron_wfs : Option ℚ := none
  Fbg : Option ℚ := none
  minTauWFS : Option ℚ := none
  tauWFS : Option ℚ := none
  deltaTau : Option ℚ := none
  lam_sci : Option ℚ := none
  zeta : Option ℚ := none
  fit_mn_max : Option ℚ := none
  ncp_wfe : Option ℚ := none
  ncp_alpha : Option ℚ := none
  starMag : Option ℚ := none
  starMags : Option (List ℚ) := none
  fmax : Option ℚ := none
  dfreq : Option ℚ := none
  k_m : Option ℚ := none
  k_n : Option ℚ := none
  gridDir : Option String := none
  subDir : Option String := none
  lpNc : Option ℤ := none
  uncontrolledLifetimes : Option Bool := none
  lifetimeTrials : Option ℤ := none
  writePSDs : Option Bool := none
  unusedConfigs : List String := []
  nonOptions : List String := []
deriving DecidableEq

/-- The three named model presets (`aosys.loadGuyon2005()` etc.), opaque
mxlib state transformations. -/
structure Presets where
  loadGuyon2005 : AOSys → AOSys
  loadMagAOX : AOSys → AOSys
  loadGMagAOX : AOSys → AOSys

/-- The result of `loadConfig`: either the process was aborted
(`exit(-1)` on an unknown WFS type) or loading finished with the updated
application state; both carry the stderr messages emitted. -/
inductive LoadResult
  | abort (code : ℤ) (msgs : List String)
  | ok (st : AppState) (msgs : List String)
deriving DecidableEq

/-- Whether configuration loading aborted the process. -/
def LoadResult.isAbort : LoadResult → Bool
  | .abort _ _ => true
  | .ok _ _ => false

/-- The PSD component dispatch of `loadConfig` (aoSystem.cpp lines
378-392): the four recognized names select a component; any other value
falls into an empty `else` branch, changing nothing and printing nothing. -/
def applyComponent (comp : Option String) (sys : AOSys) : AOSys :=
  match comp with
  | none => sys
  | some c =>
    if c = "phase" then { sys with component := .phase }
    else if c = "amplitude" then { sys with component := .amplitude }
    else if c = "dispPhase" then { sys with component := .dispPhase }
    else if c = "dispAmplitude" then { sys with component := .dispAmplitude }
    else sys

/-- The tail of `loadConfig` after the WFS dispatch (aoSystem.cpp lines
423-614): the remaining system parameters, the temporal parameters, and
the non-fatal warnings about unrecognized keys / stray arguments. -/
def finishLoad (cfg : ConfigInput) (st : AppState) : LoadResult :=
  let sys := st.aosys
  let sys := { sys with
    D := cfg.D.getD sys.D,
    d_min := cfg.d_min.getD sys.d_min,
    F0 := sys.F0,
    npix_wfs := cfg.npix_wfs.getD sys.npix_wfs,
    ron_wfs := cfg.ron_wfs.getD sys.ron_wfs,
    Fbg := cfg.Fbg.getD sys.Fbg,
    minTauWFS := cfg.minTauWFS.getD sys.minTauWFS,
    tauWFS := cfg.tauWFS.getD sys.tauWFS,
    deltaTau := cfg.deltaTau.getD sys.deltaTau,
    lam_sci := cfg.lam_sci.getD sys.lam_sci,
    zeta := cfg.zeta.getD sys.zeta,
    fit_mn_max := cfg.fit_mn_max.getD sys.fit_mn_max,
    ncp_wfe := cfg.ncp_wfe.getD sys.ncp_wfe,
    ncp_alpha := cfg.ncp_alpha.getD sys.ncp_alpha,
    starMag := cfg.starMag.getD sys.starMag }
  let st := { st with
    aosys := sys,
    starMags := cfg.starMags.getD st.starMags,
    fmax := cfg.fmax.getD st.fmax,
    dfreq := cfg.dfreq.getD st.dfreq,
    k_m := cfg.k_m.getD st.k_m,
    k_n := cfg.k_n.getD st.k_n,
    gridDir := cfg.gridDir.getD st.gridDir,
    subDir := cfg.subDir.getD st.subDir,
    lpNc := cfg.lpNc.getD st.lpNc,
    uncontrolledLifetimes := cfg.uncontrolledLifetimes.getD st.uncontrolledLifetimes,
    lifetimeTrials := cfg.lifetimeTrials.getD st.lifetimeTrials,
    writePSDs := cfg.writePSDs.getD st.writePSDs }
  let msgs :=
    (if cfg.unusedConfigs = [] then [] else ["WARNING: unrecognized config options:"]) ++
    (if cfg.nonOptions = [] then [] else ["WARNING: unrecognized command line arguments"])
  .ok st msgs

/-- The middle of `loadConfig`: the atmosphere scalar `lam_0`, the PSD
flags and component dispatch, then the WFS dispatch (aoSystem.cpp lines
286-421) — an unknown WFS name prints `Unkown WFS type` and calls
`exit(-1)`. -/
def loadConfigRest (cfg : ConfigInput) (st : AppState) : LoadResult :=
  let st := { st with lam_0 := cfg.lam_0.getD st.lam_0 }
  let sys := st.aosys
  let sys := { sys with
    subTipTilt := cfg.subTipTilt.getD sys.subTipTilt,
    scintillation := cfg.scintillation.getD sys.scintillation }
  let sys := applyComponent cfg.component sys
  match cfg.wfs with
  | none => finishLoad cfg { st with aosys := sys }
  | some w =>
    if w = "ideal" then
      finishLoad cfg { st with aosys := { sys with wfsType := .ideal } }
    else if w = "unmodPyWFS" then
      finishLoad cfg { st with aosys := { sys with wfsType := .unmodPyWFS } }
    else if w = "asympModPyWFS" then
      finishLoad cfg { st with aosys := { sys with wfsType := .asympModPyWFS } }
    else
      .abort (-1) ["Unkown WFS type"]

/-- `mxAOSystem_app::loadConfig` (aoSystem.cpp lines 250-614).  The model
dispatch comes first: a set but unrecognized model name prints
`Unknown model: <name>` and returns from `loadConfig` early — it does NOT
abort, and all configuration after the model dispatch is skipped. -/
def loadConfig (pre : Presets) (cfg : ConfigInput) (st0 : AppState) : LoadResult :=
  let st := { st0 with
    mode := cfg.mode.getD st0.mode,
    wfeUnits := cfg.wfeUnits.getD st0.wfeUnits,
    mnMap := cfg.mnMap.getD st0.mnMap }
  let model := cfg.model.getD ""
  if model ≠ "" ∧ ¬(model = "Guyon2005" ∨ model = "MagAOX" ∨ model = "GMagAOX") then
    .ok st ["Unknown model: " ++ model]
  else
    loadConfigRest cfg
      (if model = "Guyon2005" then { st with aosys := pre.loadGuyon2005 st.aosys }
       else if model = "MagAOX" then { st with aosys := pre.loadMagAOX st.aosys }
       else if model = "GMagAOX" then { st with aosys := pre.loadGMagAOX st.aosys }
       else st)

/-- The application's whole run (`application::main`: `loadConfig` then
`execute`): an abort during loading ends the process before any analysis
routine runs; otherwise the selected routine runs and its return value
becomes the exit status.  Returns (exit status, summary-file written). -/
def runApp (pre : Presets) (tf : TemporalFns) (ef : ErrorFns)
    (cfg : ConfigInput) (st : AppState) : ℤ × Bool :=
  match loadConfig pre cfg st with
  | .abort code _ => (code, false)
  | .ok st' _ =>
    let r := execute tf ef st'
    (r.rv, r.dumped)

/-- A concrete `aosys` state for witnesses (the real defaults come from the
opaque `loadMagAOX()` call in the constructor). -/
def sampleAOSys : AOSys :=
  { D := 8, d_min := 1/5, F0 := 1000000, lam_wfs := 1/1000000, npix_wfs := 100,
    ron_wfs := 1, Fbg := 0, minTauWFS := 1, tauWFS := 1, deltaTau := 0,
    lam_sci := 4/5000000, zeta := 0, fit_mn_max := 20, ncp_wfe := 0,
    ncp_alpha := 2, starMag := 8, subTipTilt := false, scintillation := false,
    component := .phase, wfsType := .ideal }

/-- The application state after the constructor (aoSystem.cpp lines
149-172): `mode = "C2Raw"`, `wfeUnits = "rad"`, `dumpSetup = true`,
`dfreq = 0.1`, `fmax = 0`, `k_m = 1`, `k_n = 0`, `lpNc = 0`, `mnMap = 50`. -/
def appDefault : AppState :=
  { aosys := sampleAOSys, lam_0 := 0, dumpSetup := true,
    setupOutName := "mxAOAnalysisSetup.txt", mode := "C2Raw", wfeUnits := "rad",
    mnMap := 50, starMags := [], dfreq := 1/10, fmax := 0, k_m := 1, k_n := 0,
    gridDir := "", subDir := "", lpNc := 0, uncontrolledLifetimes := false,
    lifetimeTrials := 0, writePSDs := false }

/-- Concrete stand-ins for the opaque temporal-PSD collaborators, used only
to instantiate witnesses. -/
def sampleTFns : TemporalFns :=
  { multiLayerPSD := fun _ f _ _ _ _ => f.map (fun _ => 1),
    beta_p := fun _ _ _ => 1,
    Fg := fun _ => 1,
    wfsNoisePSD := fun n _ _ _ _ _ _ => List.replicate n 1,
    optGainOpenLoop := fun _ _ _ _ _ _ => (1/2, 1),
    regularizeCoefficients := fun _ _ _ _ _ _ => (1, 1/2, 1),
    clTF2 := fun _ _ _ _ _ => (1, 1),
    makePSDGrid := fun _ dir _ _ _ _ => [dir],
    analyzePSDGrid := fun _ _ _ _ _ _ _ _ _ _ => 0 }

/-- Concrete stand-ins for the opaque error-budget collaborators, used only
to instantiate witnesses. -/
def sampleEFns : ErrorFns :=
  { sqrt := id, pi := 355/113,
    measurementError := fun s => s.starMag,
    timeDelayError := fun s => s.tauWFS,
    fittingError := fun s => s.fit_mn_max,
    ncpError := fun s => s.ncp_wfe,
    chromScintOPDError := fun _ => 1,
    chromIndexError := fun _ => 2,
    dispAnisoOPDError := fun _ => 3,
    strehl := fun _ => 1/2,
    d_opt := fun s => s.d_min }

/-- Identity presets for witnesses. -/
def samplePresets : Presets :=
  { loadGuyon2005 := id, loadMagAOX := id, loadGMagAOX := id }

/-- A state in which every temporal-routine precondition fails:
`minTauWFS = 0`, and `gridDir`/`subDir` left at their empty defaults. -/
def stGuardFail : AppState :=
  { appDefault with aosys := { sampleAOSys with minTauWFS := 0 } }

/-- A state on the success path of `temporalPSD` with a frequency spacing
(3/10) that does not divide the Nyquist frequency (1/2). -/
def stC3 : AppState := { appDefault with dfreq := 3/10 }

/-- A state with a linear-predictor coefficient count above 1. -/
def stLP : AppState := { appDefault with lpNc := 2 }

/-- A state on the success path of `temporalPSDGridAnalyze`. -/
def stAnalyze : AppState := { appDefault with gridDir := "g", subDir := "s" }

/-- A state selecting an unknown mode string. -/
def stBadMode : AppState := { appDefault with mode := "bogus" }

/-- A configuration whose model preset name is unknown. -/
def cfgBadModel : ConfigInput := { model := some "Guyon2006" }

/-- A configuration whose WFS variant name is unknown. -/
def cfgBadWfs : ConfigInput := { wfs := some "shackHartmann" }

/-- A configuration selecting the undocumented-but-unhandled PSD component
value `dispersion` (the help text of `setupConfig` even mentions it). -/
def cfgBadComponent : ConfigInput := { component := some "dispersion" }

/-- The header statistics reported by `temporalPSD`:
`(opt-gain SI, var SI, opt-gain LP, var LP)` (zeros if a guard failed). -/
def TPSDOutcome.stats : TPSDOutcome → ℚ × ℚ × ℚ × ℚ
  | .fail _ _ => (0, 0, 0, 0)
  | .success r => (r.goptSI, r.varSI, r.goptLP, r.varLP)

/-- The data rows printed by `temporalPSD` (`[]` if a guard failed). -/
def TPSDOutcome.outRows : TPSDOutcome → List TPSDRow
  | .fail _ _ => []
  | .success r => r.rows

/-- Claim C1: each temporal analysis routine detects a zero/unset required
positive quantity (minTauWFS or dfreq for temporalPSD; gridDir, fit_mn_max,
dfreq or minTauWFS for temporalPSDGrid; gridDir, subDir or fit_mn_max for
temporalPSDGridAnalyze) inside itself, reports a descriptive message, and
returns the failure indicator -1 with no partial output finalized (the
`fail` outcome carries no grid, rows, or analysis call). -/
theorem C1_precondition_guards (fns : TemporalFns) (st : AppState) :
    ((st.aosys.minTauWFS ≤ 0 ∨ st.dfreq ≤ 0) →
       ∃ msg, temporalPSD fns st = TPSDOutcome.fail (-1) msg ∧ msg ≠ "") ∧
    ((st.gridDir = "" ∨ st.aosys.fit_mn_max ≤ 0 ∨ st.dfreq ≤ 0 ∨ st.aosys.minTauWFS ≤ 0) →
       ∃ msg, temporalPSDGrid fns st = GridOutcome.fail (-1) msg ∧ msg ≠ "") ∧
    ((st.gridDir = "" ∨ st.subDir = "" ∨ st.aosys.fit_mn_max ≤ 0) →
       ∃ msg, temporalPSDGridAnalyze fns st = GridAnalyzeOutcome.fail (-1) msg ∧ msg ≠ "") := by
  refine ⟨?_, ?_, ?_⟩
  · intro h
    by_cases h1 : st.aosys.minTauWFS ≤ 0
    · exact ⟨"temporalPSD: You must set minTauWFS to be > 0 to specify loop frequency.",
        by simp [temporalPSD, h1], by decide⟩
    · have h2 : st.dfreq ≤ 0 := h.resolve_left h1
      exact ⟨"temporalPSD: You must set dfreq to be > 0 to specify frequency sampling.",
        by simp [temporalPSD, h1, h2], by decide⟩
  · intro h
    by_cases hg : st.gridDir = ""
    · exact ⟨"temporalPSDGrid: You must set gridDir.",
        by simp [temporalPSDGrid, hg], by decide⟩
    by_cases hf : st.aosys.fit_mn_max ≤ 0
    · exact ⟨"temporalPSDGrid: You must set fit_mn_max to be > 0.",
        by simp [temporalPSDGrid, hg, hf], by decide⟩
    by_cases hd : st.dfreq ≤ 0
    · exact ⟨"temporalPSDGrid: You must set dfreq to be > 0 to specify frequency sampling.",
        by simp [temporalPSDGrid, hg, hf, hd], by decide⟩
    · have hm : st.aosys.minTauWFS ≤ 0 := by tauto
      exact ⟨"temporalPSDGrid: You must set minTauWFS to be > 0 to specify loop frequency.",
        by simp [temporalPSDGrid, hg, hf, hd, hm], by decide⟩
  · intro h
    by_cases hg : st.gridDir = ""
    · exact ⟨"temporalPSDGridAnalyze: You must set gridDir.",
        by simp [temporalPSDGridAnalyze, hg], by decide⟩
    by_cases hs : st.subDir = ""
    · exact ⟨"temporalPSDGridAnalyze: You must set subDir.",
        by simp [temporalPSDGridAnalyze, hg, hs], by decide⟩
    · have hf : st.aosys.fit_mn_max ≤ 0 := by tauto
      exact ⟨"temporalPSDGridAnalyze: You must set fit_mn_max to be > 0.",
        by simp [temporalPSDGridAnalyze, hg, hs, hf], by decide⟩

/-- Witness for C1 at a concrete state with `minTauWFS = 0` and empty
`gridDir`/`subDir`. -/
theorem C1_precondition_guards_witness :
    (∃ msg, temporalPSD sampleTFns stGuardFail = TPSDOutcome.fail (-1) msg ∧ msg ≠ "") ∧
    (∃ msg, temporalPSDGrid sampleTFns stGuardFail = GridOutcome.fail (-1) msg ∧ msg ≠ "") ∧
    (∃ msg, temporalPSDGridAnalyze sampleTFns stGuardFail
       = GridAnalyzeOutcome.fail (-1) msg ∧ msg ≠ "") :=
  ⟨(C1_precondition_guards sampleTFns stGuardFail).1 (Or.inl (by decide)),
   (C1_precondition_guards sampleTFns stGuardFail).2.1 (Or.inl (by decide)),
   (C1_precondition_guards sampleTFns stGuardFail).2.2 (Or.inl (by decide))⟩

/-- Claim C9: when the star-magnitude list is empty, the grid-analysis
routine analyzes exactly one magnitude — the configured scalar `starMag` —
and otherwise exactly the configured list, in its given order; the list is
what gets handed to `analyzePSDGrid`. -/
theorem C9_gridAnalyze_starMags (fns : TemporalFns) (st : AppState)
    (hg : st.gridDir ≠ "") (hs : st.subDir ≠ "") (hf : ¬ st.aosys.fit_mn_max ≤ 0) :
    ∃ rv mnCon, temporalPSDGridAnalyze fns st =
      GridAnalyzeOutcome.success rv
        (if st.starMags = [] then [st.aosys.starMag] else st.starMags) mnCon := by
  refine ⟨fns.analyzePSDGrid st.aosys st.subDir st.gridDir st.aosys.fit_mn_max
    (ratTrunc (st.aosys.D / st.aosys.d_min / 2)) st.lpNc
    (if st.starMags = [] then [st.aosys.starMag] else st.starMags)
    st.lifetimeTrials st.uncontrolledLifetimes st.writePSDs,
    ratTrunc (st.aosys.D / st.aosys.d_min / 2), ?_⟩
  simp [temporalPSDGridAnalyze, hg, hs, hf]

/-- Witness for C9 at a concrete state with an empty star-magnitude list:
the routine analyzes exactly `[starMag] = [8]`. -/
theorem C9_gridAnalyze_starMags_witness :
    ∃ rv mnCon, temporalPSDGridAnalyze sampleTFns stAnalyze =
      GridAnalyzeOutcome.success rv
        (if stAnalyze.starMags = [] then [stAnalyze.aosys.starMag] else stAnalyze.starMags)
        mnCon :=
  C9_gridAnalyze_starMags sampleTFns stAnalyze (by decide) (by decide) (by decide)

/-- Claim C4: with `lpNc ≤ 1` the linear-predictor optimization path of
`temporalPSD` is skipped entirely — the result does not depend on the
predictor optimizer at all (no coefficients are solved) and the reported
LP gain/variance and per-row LP transfer functions are the sentinels -1,
so only the SingleIntegrator optimum gain and variance are reported; with
`lpNc > 1` the LP optimization is performed in addition to the
SingleIntegrator one and both sets of results are reported. -/
theorem C4_lp_path_guard (fns : TemporalFns) (st : AppState) :
    (st.lpNc ≤ 1 →
      (∀ reg, temporalPSD { fns with regularizeCoefficients := reg } st = temporalPSD fns st) ∧
      (¬ st.aosys.minTauWFS ≤ 0 → ¬ st.dfreq ≤ 0 →
        (temporalPSD fns st).stats.2.2.1 = -1 ∧ (temporalPSD fns st).stats.2.2.2 = -1 ∧
        ∀ row ∈ (temporalPSD fns st).outRows, row.etfLP = -1 ∧ row.ntfLP = -1)) ∧
    (1 < st.lpNc → ¬ st.aosys.minTauWFS ≤ 0 → ¬ st.dfreq ≤ 0 →
      (let fs : ℚ := 1 / st.aosys.minTauWFS
       let freq := specFreqGrid (1/2 * fs) st.dfreq
       let psdOL := fns.multiLayerPSD st.aosys freq st.k_m st.k_n 1 st.fmax
       let psdN := fns.wfsNoisePSD freq.length (fns.beta_p st.aosys st.k_m st.k_n)
         (fns.Fg st.aosys) (1 / fs) st.aosys.npix_wfs st.aosys.Fbg st.aosys.ron_wfs
       let si := fns.optGainOpenLoop (1 / fs) (3/2 / fs) freq psdOL psdN 0
       let lp := fns.regularizeCoefficients (1 / fs) (3/2 / fs) freq psdOL psdN st.lpNc
       (temporalPSD fns st).stats = (si.1, si.2, lp.2.1, lp.2.2))) := by
  constructor
  · intro h
    have hlp : ¬ (1 : ℤ) < st.lpNc := not_lt.mpr h
    constructor
    · intro reg
      by_cases h1 : st.aosys.minTauWFS ≤ 0
      · simp [temporalPSD, h1]
      by_cases h2 : st.dfreq ≤ 0
      · simp [temporalPSD, h1, h2]
      · simp [temporalPSD, h1, h2, hlp]
    · intro h1 h2
      refine ⟨?_, ?_, ?_⟩
      · simp [temporalPSD, h1, h2, hlp, TPSDOutcome.stats]
      · simp [temporalPSD, h1, h2, hlp, TPSDOutcome.stats]
      · intro row hrow
        simp only [temporalPSD, h1, h2, hlp, if_false, if_neg, TPSDOutcome.outRows,
          List.mem_map, List.mem_range] at hrow
        obtain ⟨i, _, hi⟩ := hrow
        subst hi
        simp
  · intro hlp h1 h2
    simp [temporalPSD, h1, h2, hlp, TPSDOutcome.stats]

/-- Witness for C4 at the default state (`lpNc = 0`, guards passing):
replacing the predictor optimizer does not change the result, and the
reported LP quantities are the sentinels. -/
theorem C4_lp_path_guard_witness :
    (temporalPSD { sampleTFns with regularizeCoefficients := fun _ _ _ _ _ _ => (7, 7, 7) }
        appDefault = temporalPSD sampleTFns appDefault) ∧
    (temporalPSD sampleTFns appDefault).stats.2.2.1 = -1 ∧
    (temporalPSD sampleTFns appDefault).stats.2.2.2 = -1 ∧
    ∀ row ∈ (temporalPSD sampleTFns appDefault).outRows, row.etfLP = -1 ∧ row.ntfLP = -1 :=
  ⟨((C4_lp_path_guard sampleTFns appDefault).1 (by norm_num [appDefault])).1 _,
   ((C4_lp_path_guard sampleTFns appDefault).1 (by norm_num [appDefault])).2
     (by norm_num [appDefault, sampleAOSys]) (by norm_num [appDefault])⟩

/-- The modelled frequency grid starts at 0. -/
theorem specFreqGrid_headEq (nyq df : ℚ) : (specFreqGrid nyq df).head? = some 0 := by
  simp [specFreqGrid, List.range_succ_eq_map]

/-- The i-th point of the modelled frequency grid is `i * df`. -/
theorem specFreqGrid_getEq (nyq df : ℚ) (i : ℕ) (h : i < (specFreqGrid nyq df).length) :
    (specFreqGrid nyq df).get ⟨i, h⟩ = (i : ℚ) * df := by
  simp only [specFreqGrid, List.get_eq_getElem, List.getElem_map, List.getElem_range]

/-- The last point of the modelled frequency grid is `⌊nyq/df⌋ * df`. -/
theorem specFreqGrid_lastEq (nyq df : ℚ) (h0 : 0 ≤ nyq / df) :
    (specFreqGrid nyq df).getLast? = some ((⌊nyq / df⌋ : ℚ) * df) := by
  have hn : ((⌊nyq / df⌋.toNat : ℕ) : ℚ) = ((⌊nyq / df⌋ : ℤ) : ℚ) := by
    rw [← Int.cast_natCast, Int.toNat_of_nonneg (Int.floor_nonneg.mpr h0)]
  rw [specFreqGrid, List.range_succ, List.map_append, List.map_cons, List.map_nil,
    List.getLast?_concat, hn]

/-- Claim C3 (amended): on the success path of `temporalPSD` the frequency
grid is the spec-modelled `specFreqGrid`: it is uniform with spacing
`dfreq`, its first point is 0, and its last point is `⌊Nyquist/dfreq⌋ ·
dfreq` — the largest grid point not exceeding the Nyquist frequency
`1/(2·minTauWFS)`; it equals the Nyquist frequency itself only in the
special case where `dfreq` divides it evenly. -/
theorem C3_freq_grid_amended (fns : TemporalFns) (st : AppState)
    (h1 : ¬ st.aosys.minTauWFS ≤ 0) (h2 : ¬ st.dfreq ≤ 0) :
    ((temporalPSD fns st).freqGrid
        = specFreqGrid (1 / (2 * st.aosys.minTauWFS)) st.dfreq) ∧
    ((temporalPSD fns st).freqGrid.head? = some 0) ∧
    (∀ i (h : i + 1 < (temporalPSD fns st).freqGrid.length),
        (temporalPSD fns st).freqGrid.get ⟨i + 1, h⟩
          - (temporalPSD fns st).freqGrid.get ⟨i, Nat.lt_of_succ_lt h⟩ = st.dfreq) ∧
    ((temporalPSD fns st).freqGrid.getLast?
        = some ((⌊(1 / (2 * st.aosys.minTauWFS)) / st.dfreq⌋ : ℚ) * st.dfreq)) ∧
    ((⌊(1 / (2 * st.aosys.minTauWFS)) / st.dfreq⌋ : ℚ) * st.dfreq
        ≤ 1 / (2 * st.aosys.minTauWFS)) ∧
    (1 / (2 * st.aosys.minTauWFS)
        < (⌊(1 / (2 * st.aosys.minTauWFS)) / st.dfreq⌋ : ℚ) * st.dfreq + st.dfreq) := by
  have hnyq : (1 : ℚ)/2 * (1 / st.aosys.minTauWFS) = 1 / (2 * st.aosys.minTauWFS) := by
    rw [div_mul_div_comm]
    norm_num
  have hg : (temporalPSD fns st).freqGrid
      = specFreqGrid (1 / (2 * st.aosys.minTauWFS)) st.dfreq := by
    rw [← hnyq]
    simp [temporalPSD, h1, h2, TPSDOutcome.freqGrid]
  have hdf : 0 < st.dfreq := not_le.mp h2
  have hmt : 0 < st.aosys.minTauWFS := not_le.mp h1
  have hnn : 0 ≤ (1 / (2 * st.aosys.minTauWFS)) / st.dfreq :=
    le_of_lt (div_pos (by positivity) hdf)
  refine ⟨hg, ?_, ?_, ?_, ?_, ?_⟩
  · rw [hg]; exact specFreqGrid_headEq _ _
  · intro i h
    have h' : i < (temporalPSD fns st).freqGrid.length := Nat.lt_of_succ_lt h
    have e1 := specFreqGrid_getEq (1 / (2 * st.aosys.minTauWFS)) st.dfreq (i + 1) (hg ▸ h)
    have e2 := specFreqGrid_getEq (1 / (2 * st.aosys.minTauWFS)) st.dfreq i (hg ▸ h')
    rw [List.get_of_eq hg, List.get_of_eq hg, e1, e2]
    push_cast
    ring
  · rw [hg]; exact specFreqGrid_lastEq _ _ hnn
  · have hfl := Int.floor_le ((1 / (2 * st.aosys.minTauWFS)) / st.dfreq)
    have := mul_le_mul_of_nonneg_right hfl (le_of_lt hdf)
    rwa [div_mul_cancel₀ _ (ne_of_gt hdf)] at this
  · have hfl := Int.lt_floor_add_one ((1 / (2 * st.aosys.minTauWFS)) / st.dfreq)
    have := mul_lt_mul_of_pos_right hfl hdf
    rw [div_mul_cancel₀ _ (ne_of_gt hdf)] at this
    calc 1 / (2 * st.aosys.minTauWFS)
        < ((⌊(1 / (2 * st.aosys.minTauWFS)) / st.dfreq⌋ : ℚ) + 1) * st.dfreq := this
      _ = (⌊(1 / (2 * st.aosys.minTauWFS)) / st.dfreq⌋ : ℚ) * st.dfreq + st.dfreq := by ring

/-- Counterexample to C3 as stated: with `minTauWFS = 1` and
`dfreq = 3/10`, the Nyquist frequency is 1/2 but the grid's last point is
3/10 ≠ 1/2 (the spacing does not divide the Nyquist frequency, so the
claim's "last point is 1/(2·minTauWFS)" fails). -/
theorem C3_freq_grid_counterexample :
    (temporalPSD sampleTFns stC3).freqGrid.getLast? = some (3/10) ∧
    (3/10 : ℚ) ≠ 1 / (2 * stC3.aosys.minTauWFS) := by
  constructor
  · norm_num [temporalPSD, stC3, appDefault, sampleAOSys, sampleTFns,
      TPSDOutcome.freqGrid, specFreqGrid, List.range_succ]
  · norm_num [stC3, appDefault, sampleAOSys]

/-- Witness for the amended C3 at the same concrete state. -/
theorem C3_freq_grid_amended_witness :
    ((temporalPSD sampleTFns stC3).freqGrid
        = specFreqGrid (1 / (2 * stC3.aosys.minTauWFS)) stC3.dfreq) ∧
    ((temporalPSD sampleTFns stC3).freqGrid.head? = some 0) ∧
    (∀ i (h : i + 1 < (temporalPSD sampleTFns stC3).freqGrid.length),
        (temporalPSD sampleTFns stC3).freqGrid.get ⟨i + 1, h⟩
          - (temporalPSD sampleTFns stC3).freqGrid.get ⟨i, Nat.lt_of_succ_lt h⟩
            = stC3.dfreq) ∧
    ((temporalPSD sampleTFns stC3).freqGrid.getLast?
        = some ((⌊(1 / (2 * stC3.aosys.minTauWFS)) / stC3.dfreq⌋ : ℚ) * stC3.dfreq)) ∧
    ((⌊(1 / (2 * stC3.aosys.minTauWFS)) / stC3.dfreq⌋ : ℚ) * stC3.dfreq
        ≤ 1 / (2 * stC3.aosys.minTauWFS)) ∧
    (1 / (2 * stC3.aosys.minTauWFS)
        < (⌊(1 / (2 * stC3.aosys.minTauWFS)) / stC3.dfreq⌋ : ℚ) * stC3.dfreq + stC3.dfreq) :=
  C3_freq_grid_amended sampleTFns stC3
    (by norm_num [stC3, appDefault, sampleAOSys]) (by norm_num [stC3, appDefault])

/-- The sweep with units factor `u` produces exactly the radian-unit sweep
with every wavefront-error entry post-multiplied by `u`, and the same
final state. -/
theorem ebSweep_scale (ef : ErrorFns) (u : ℚ) (sys : AOSys) (mags : List ℚ) :
    (ebSweep ef u sys mags).1 = (ebSweep ef 1 sys mags).1.map (scaleEBLine u) ∧
    (ebSweep ef u sys mags).2 = (ebSweep ef 1 sys mags).2 := by
  induction mags generalizing sys with
  | nil => simp [ebSweep]
  | cons m ms ih =>
    refine ⟨?_, ?_⟩
    · simp [ebSweep, scaleEBLine, (ih _).1]
    · simp [ebSweep, (ih _).2]

/-- Each sweep row carries the star magnitude it was produced for, in
input order. -/
theorem ebSweep_rowMags (ef : ErrorFns) (u : ℚ) (sys : AOSys) (mags : List ℚ) :
    (ebSweep ef u sys mags).1.map EBLine.rowMag = mags.map some := by
  induction mags generalizing sys with
  | nil => simp [ebSweep]
  | cons m ms ih => simp [ebSweep, EBLine.rowMag, ih]

/-- After the sweep, the stored star magnitude is the last magnitude of the
list (or the original if the list was empty); no other field changes. -/
theorem ebSweep_state (ef : ErrorFns) (u : ℚ) (sys : AOSys) (mags : List ℚ) :
    (ebSweep ef u sys mags).2 = { sys with starMag := mags.getLastD sys.starMag } := by
  induction mags generalizing sys with
  | nil => simp [ebSweep]
  | cons m ms ih =>
    simp only [ebSweep, ih]
    rw [List.getLastD_cons]

/-- `ErrorBudgetU` with units factor `u` is the radian-unit (factor 1) run
with every wavefront-error entry post-multiplied by `u`; state and return
value are identical. -/
theorem ErrorBudgetU_scale (ef : ErrorFns) (u : ℚ) (mags : List ℚ) (sys : AOSys) :
    (ErrorBudgetU ef u mags sys).1 = (ErrorBudgetU ef 1 mags sys).1.map (scaleEBLine u) ∧
    (ErrorBudgetU ef u mags sys).2 = (ErrorBudgetU ef 1 mags sys).2 := by
  by_cases h : mags = []
  · subst h
    simp [ErrorBudgetU, scaleEBLine]
  · have hs := ebSweep_scale ef u sys mags
    constructor
    · simp only [ErrorBudgetU, if_neg h, List.map_cons, scaleEBLine, hs.1]
    · simp only [ErrorBudgetU, if_neg h, hs.2]

/-- Claim C5: unit conversion in the error-budget routine is a pure
post-multiplication.  With `wfeUnits = "rad"` the factor is the initial 1;
the `"nm"` run's output is exactly the radian run's output with every
wavefront-error magnitude (and nothing else — in particular not the Strehl
value, star magnitude or `d_opt`) multiplied by the single factor
`lam_sci/(2π)/1e-9` after the square root; the final state and return
value (hence the underlying variance computations) are identical. -/
theorem C5_units_postmultiplication (ef : ErrorFns) (mags : List ℚ) (sys : AOSys) :
    (ErrorBudget ef "rad" mags sys = ErrorBudgetU ef 1 mags sys) ∧
    ((ErrorBudget ef "nm" mags sys).1 =
      (ErrorBudget ef "rad" mags sys).1.map
        (scaleEBLine (sys.lam_sci / (2 * ef.pi) / (1 / 1000000000)))) ∧
    ((ErrorBudget ef "nm" mags sys).2 = (ErrorBudget ef "rad" mags sys).2) := by
  have e1 : ErrorBudget ef "nm" mags sys
      = ErrorBudgetU ef (sys.lam_sci / (2 * ef.pi) / (1 / 1000000000)) mags sys := by
    unfold ErrorBudget ebUnits
    rw [if_pos rfl]
  have e2 : ErrorBudget ef "rad" mags sys = ErrorBudgetU ef 1 mags sys := by
    unfold ErrorBudget ebUnits
    rw [if_neg (by decide)]
  refine ⟨e2, ?_, ?_⟩
  · rw [e1, e2]
    exact (ErrorBudgetU_scale ef (sys.lam_sci / (2 * ef.pi) / (1 / 1000000000)) mags sys).1
  · rw [e1, e2]
    exact (ErrorBudgetU_scale ef (sys.lam_sci / (2 * ef.pi) / (1 / 1000000000)) mags sys).2

/-- Claim C7: the error-budget output has exactly one of two shapes —
with no star-magnitude list, exactly the five scalar lines (measurement,
time-delay, fitting, NCP error, Strehl); with a non-empty list, one header
row followed by exactly one row per magnitude, in the input order of the
list. -/
theorem C7_errorbudget_output_shape (ef : ErrorFns) (wfeUnits : String)
    (mags : List ℚ) (sys : AOSys) :
    (mags = [] →
      (ErrorBudget ef wfeUnits mags sys).1 =
        [EBLine.wfe "Measurement"
           (ef.sqrt (ef.measurementError sys) * ebUnits ef sys wfeUnits),
         EBLine.wfe "Time-delay"
           (ef.sqrt (ef.timeDelayError sys) * ebUnits ef sys wfeUnits),
         EBLine.wfe "Fitting"
           (ef.sqrt (ef.fittingError sys) * ebUnits ef sys wfeUnits),
         EBLine.wfe "NCP error"
           (ef.sqrt (ef.ncpError sys) * ebUnits ef sys wfeUnits),
         EBLine.strehlLine (ef.strehl sys)]) ∧
    (mags ≠ [] →
      ∃ rows, (ErrorBudget ef wfeUnits mags sys).1 = EBLine.header :: rows ∧
        rows.length = mags.length ∧ rows.map EBLine.rowMag = mags.map some) := by
  constructor
  · intro h; subst h
    simp [ErrorBudget, ErrorBudgetU]
  · intro h
    refine ⟨(ebSweep ef (ebUnits ef sys wfeUnits) sys mags).1, ?_, ?_, ?_⟩
    · simp [ErrorBudget, ErrorBudgetU, h]
    · have hm := ebSweep_rowMags ef (ebUnits ef sys wfeUnits) sys mags
      have := congrArg List.length hm
      simpa using this
    · exact ebSweep_rowMags ef (ebUnits ef sys wfeUnits) sys mags

/-- Witness for C7: the empty-list shape at the default configuration, and
the sweep shape at the two-element list [8, 9]. -/
theorem C7_errorbudget_output_shape_witness :
    ((ErrorBudget sampleEFns "rad" [] sampleAOSys).1 =
      [EBLine.wfe "Measurement"
         (sampleEFns.sqrt (sampleEFns.measurementError sampleAOSys)
           * ebUnits sampleEFns sampleAOSys "rad"),
       EBLine.wfe "Time-delay"
         (sampleEFns.sqrt (sampleEFns.timeDelayError sampleAOSys)
           * ebUnits sampleEFns sampleAOSys "rad"),
       EBLine.wfe "Fitting"
         (sampleEFns.sqrt (sampleEFns.fittingError sampleAOSys)
           * ebUnits sampleEFns sampleAOSys "rad"),
       EBLine.wfe "NCP error"
         (sampleEFns.sqrt (sampleEFns.ncpError sampleAOSys)
           * ebUnits sampleEFns sampleAOSys "rad"),
       EBLine.strehlLine (sampleEFns.strehl sampleAOSys)]) ∧
    (∃ rows, (ErrorBudget sampleEFns "rad" [8, 9] sampleAOSys).1 = EBLine.header :: rows ∧
       rows.length = ([8, 9] : List ℚ).length ∧
       rows.map EBLine.rowMag = ([8, 9] : List ℚ).map some) :=
  ⟨(C7_errorbudget_output_shape sampleEFns "rad" [] sampleAOSys).1 rfl,
   (C7_errorbudget_output_shape sampleEFns "rad" [8, 9] sampleAOSys).2 (by simp)⟩

/-- Claim C10: after the error-budget routine runs with a non-empty
star-magnitude list, the stored star magnitude equals the last element of
the list, and no other configuration field is modified (the final state is
exactly the input state with only `starMag` replaced). -/
theorem C10_sweep_mutation_persists (ef : ErrorFns) (wfeUnits : String)
    (mags : List ℚ) (sys : AOSys) (h : mags ≠ []) :
    (ErrorBudget ef wfeUnits mags sys).2.1 = { sys with starMag := mags.getLast h } := by
  have hst := ebSweep_state ef (ebUnits ef sys wfeUnits) sys mags
  have hlast : mags.getLastD sys.starMag = mags.getLast h := by
    rw [List.getLastD_eq_getLast?, List.getLast?_eq_getLast mags h, Option.getD_some]
  simp only [ErrorBudget, ErrorBudgetU, if_neg h, hst, hlast]

/-- Witness for C10 at the list [8, 9]: the final stored star magnitude is
9 and every other field of the sample configuration is untouched. -/
theorem C10_sweep_mutation_persists_witness :
    (ErrorBudget sampleEFns "rad" [8, 9] sampleAOSys).2.1 =
      { sampleAOSys with starMag := 9 } :=
  C10_sweep_mutation_persists sampleEFns "rad" [8, 9] sampleAOSys (by simp)

/-- Claim C8: an unrecognized PSD component value silently does nothing —
the component dispatch leaves the system state unchanged, and the whole of
configuration loading behaves exactly as if the component key had not been
set at all (same resulting state, same messages, no error, execution
continues). -/
theorem C8_unknown_component_silent (pre : Presets) (cfg : ConfigInput) (st : AppState)
    (c : String) (hc : cfg.component = some c) (h1 : c ≠ "phase") (h2 : c ≠ "amplitude")
    (h3 : c ≠ "dispPhase") (h4 : c ≠ "dispAmplitude") :
    (∀ sys, applyComponent (some c) sys = sys) ∧
    loadConfig pre cfg st = loadConfig pre { cfg with component := none } st := by
  have hid : ∀ sys, applyComponent (some c) sys = sys := by
    intro sys
    simp [applyComponent, h1, h2, h3, h4]
  have hnone : ∀ sys, applyComponent none sys = sys := fun _ => rfl
  refine ⟨hid, ?_⟩
  unfold loadConfig loadConfigRest
  simp only [hc, hid, hnone]
  rfl

/-- Witness for C8 at the concrete component value `dispersion` (a value
the option help text even documents), which the dispatch does not handle. -/
theorem C8_unknown_component_silent_witness :
    (∀ sys, applyComponent (some "dispersion") sys = sys) ∧
    loadConfig samplePresets cfgBadComponent appDefault
      = loadConfig samplePresets { cfgBadComponent with component := none } appDefault :=
  C8_unknown_component_silent samplePresets cfgBadComponent appDefault "dispersion"
    rfl (by decide) (by decide) (by decide) (by decide)

/-- Claim C2 (amended): an unknown WFS variant name is fatal — provided
configuration loading reaches the WFS dispatch (the model preset name, if
set, is recognized), `loadConfig` aborts the process with code -1.  An
unknown model preset name, however, is NOT fatal: `loadConfig` reports
`Unknown model: <name>` and returns early (skipping the remaining
configuration, including the WFS dispatch), and execution continues into
the analysis routine. -/
theorem C2_amended_config_fatality (pre : Presets) (cfg : ConfigInput) (st : AppState) :
    (∀ w, cfg.wfs = some w → w ≠ "ideal" → w ≠ "unmodPyWFS" → w ≠ "asympModPyWFS" →
      (cfg.model.getD "" = "" ∨ cfg.model.getD "" = "Guyon2005" ∨
       cfg.model.getD "" = "MagAOX" ∨ cfg.model.getD "" = "GMagAOX") →
      loadConfig pre cfg st = LoadResult.abort (-1) ["Unkown WFS type"]) ∧
    (∀ m, cfg.model = some m → m ≠ "" → m ≠ "Guyon2005" → m ≠ "MagAOX" → m ≠ "GMagAOX" →
      loadConfig pre cfg st =
        LoadResult.ok
          { st with
              mode := cfg.mode.getD st.mode,
              wfeUnits := cfg.wfeUnits.getD st.wfeUnits,
              mnMap := cfg.mnMap.getD st.mnMap }
          ["Unknown model: " ++ m]) := by
  constructor
  · intro w hw hw1 hw2 hw3 hm
    have hguard : ¬(cfg.model.getD "" ≠ "" ∧
        ¬(cfg.model.getD "" = "Guyon2005" ∨ cfg.model.getD "" = "MagAOX" ∨
          cfg.model.getD "" = "GMagAOX")) := by
      rcases hm with h | h | h | h <;> simp [h]
    unfold loadConfig
    rw [if_neg hguard]
    unfold loadConfigRest
    simp only [hw]
    simp [hw1, hw2, hw3]
  · intro m hm hm1 hm2 hm3 hm4
    have hguard : cfg.model.getD "" ≠ "" ∧
        ¬(cfg.model.getD "" = "Guyon2005" ∨ cfg.model.getD "" = "MagAOX" ∨
          cfg.model.getD "" = "GMagAOX") := by
      simp [hm, hm1, hm2, hm3, hm4]
    unfold loadConfig
    rw [if_pos hguard]
    simp [hm]

/-- Counterexample to C2 as stated: with the unknown model preset name
`Guyon2006`, configuration loading does NOT abort — it returns normally
and the analysis run proceeds (the default `C2Raw` routine runs, returns
0, and the summary file is written). -/
theorem C2_counterexample_model_not_fatal :
    (loadConfig samplePresets cfgBadModel appDefault).isAbort = false ∧
    runApp samplePresets sampleTFns sampleEFns cfgBadModel appDefault = (0, true) := by
  constructor
  · rfl
  · rfl

/-- Witness for the amended C2: a configuration with the unknown WFS name
`shackHartmann` (and no model preset) aborts with code -1. -/
theorem C2_amended_config_fatality_witness :
    loadConfig samplePresets cfgBadWfs appDefault
      = LoadResult.abort (-1) ["Unkown WFS type"] :=
  (C2_amended_config_fatality samplePresets cfgBadWfs appDefault).1 "shackHartmann"
    rfl (by decide) (by decide) (by decide) (Or.inl rfl)

/-- A failed precondition makes `temporalPSD` return -1. -/
theorem temporalPSD_guard_rv (fns : TemporalFns) (st : AppState)
    (h : st.aosys.minTauWFS ≤ 0 ∨ st.dfreq ≤ 0) : (temporalPSD fns st).rv = -1 := by
  by_cases h1 : st.aosys.minTauWFS ≤ 0
  · simp [temporalPSD, h1, TPSDOutcome.rv]
  · have h2 : st.dfreq ≤ 0 := h.resolve_left h1
    simp [temporalPSD, h1, h2, TPSDOutcome.rv]

/-- A failed precondition makes `temporalPSDGrid` return -1. -/
theorem temporalPSDGrid_guard_rv (fns : TemporalFns) (st : AppState)
    (h : st.gridDir = "" ∨ st.aosys.fit_mn_max ≤ 0 ∨ st.dfreq ≤ 0 ∨ st.aosys.minTauWFS ≤ 0) :
    (temporalPSDGrid fns st).rv = -1 := by
  by_cases hg : st.gridDir = ""
  · simp [temporalPSDGrid, hg, GridOutcome.rv]
  by_cases hf : st.aosys.fit_mn_max ≤ 0
  · simp [temporalPSDGrid, hg, hf, GridOutcome.rv]
  by_cases hd : st.dfreq ≤ 0
  · simp [temporalPSDGrid, hg, hf, hd, GridOutcome.rv]
  · have hm : st.aosys.minTauWFS ≤ 0 := by tauto
    simp [temporalPSDGrid, hg, hf, hd, hm, GridOutcome.rv]

/-- A failed precondition makes `temporalPSDGridAnalyze` return -1. -/
theorem temporalPSDGridAnalyze_guard_rv (fns : TemporalFns) (st : AppState)
    (h : st.gridDir = "" ∨ st.subDir = "" ∨ st.aosys.fit_mn_max ≤ 0) :
    (temporalPSDGridAnalyze fns st).rv = -1 := by
  by_cases hg : st.gridDir = ""
  · simp [temporalPSDGridAnalyze, hg, GridAnalyzeOutcome.rv]
  by_cases hs : st.subDir = ""
  · simp [temporalPSDGridAnalyze, hg, hs, GridAnalyzeOutcome.rv]
  · have hf : st.aosys.fit_mn_max ≤ 0 := by tauto
    simp [temporalPSDGridAnalyze, hg, hs, hf, GridAnalyzeOutcome.rv]

/-- The error-budget routine always returns 0. -/
theorem ErrorBudget_rv (ef : ErrorFns) (u : String) (mags : List ℚ) (sys : AOSys) :
    (ErrorBudget ef u mags sys).2.2 = 0 := by
  by_cases h : mags = [] <;> simp [ErrorBudget, ErrorBudgetU, h]

/-- Claim C6: the top-level `execute` routine returns the selected
routine's status — -1 (negative) for an unknown mode string and for every
validation failure inside the temporal routines, 0 for the routines that
always succeed — and the configuration-summary file is written if and
only if the dump flag is set and the returned status is 0 (never after a
failed routine). -/
theorem C6_execute_status_and_dump (tf : TemporalFns) (ef : ErrorFns) (st : AppState) :
    ((execute tf ef st).dumped = (st.dumpSetup && ((execute tf ef st).rv == 0))) ∧
    (st.mode ∉ knownModes → (execute tf ef st).rv = -1) ∧
    (st.mode ∈ simpleModes → (execute tf ef st).rv = 0) ∧
    (st.mode = "temporalPSD" → (st.aosys.minTauWFS ≤ 0 ∨ st.dfreq ≤ 0) →
      (execute tf ef st).rv < 0) ∧
    (st.mode = "temporalPSDGrid" →
      (st.gridDir = "" ∨ st.aosys.fit_mn_max ≤ 0 ∨ st.dfreq ≤ 0 ∨ st.aosys.minTauWFS ≤ 0) →
      (execute tf ef st).rv < 0) ∧
    (st.mode = "temporalPSDGridAnalyze" →
      (st.gridDir = "" ∨ st.subDir = "" ∨ st.aosys.fit_mn_max ≤ 0) →
      (execute tf ef st).rv < 0) := by
  refine ⟨rfl, ?_, ?_, ?_, ?_, ?_⟩
  · intro h
    simp only [knownModes, List.mem_cons, List.not_mem_nil, or_false, not_or] at h
    obtain ⟨h1, h2, h3, h4, h5, h6, h7, h8, h9, h10, h11, h12, h13, h14, h15, h16, h17,
      h18, h19⟩ := h
    simp [execute, executeCore, h1, h2, h3, h4, h5, h6, h7, h8, h9, h10, h11, h12, h13,
      h14, h15, h16, h17, h18, h19]
  · intro h
    simp only [simpleModes, List.mem_cons, List.not_mem_nil, or_false] at h
    rcases h with h|h|h|h|h|h|h|h|h|h|h|h|h|h|h|h <;>
      simp [execute, executeCore, h, ErrorBudget_rv]
  · intro h hc
    have he : (execute tf ef st).rv = (temporalPSD tf st).rv := by
      simp [execute, executeCore, h]
    rw [he, temporalPSD_guard_rv tf st hc]
    norm_num
  · intro h hc
    have he : (execute tf ef st).rv = (temporalPSDGrid tf st).rv := by
      simp [execute, executeCore, h]
    rw [he, temporalPSDGrid_guard_rv tf st hc]
    norm_num
  · intro h hc
    have he : (execute tf ef st).rv = (temporalPSDGridAnalyze tf st).rv := by
      simp [execute, executeCore, h]
    rw [he, temporalPSDGridAnalyze_guard_rv tf st hc]
    norm_num

/-- Witness for C6 at a concrete unknown mode string: the status is -1 and
no summary file is written. -/
theorem C6_execute_status_and_dump_witness :
    (execute sampleTFns sampleEFns stBadMode).rv = -1 ∧
    (execute sampleTFns sampleEFns stBadMode).dumped = false :=
  ⟨(C6_execute_status_and_dump sampleTFns sampleEFns stBadMode).2.1
     (by simp [stBadMode, appDefault, knownModes]),
   by
     have hd := (C6_execute_status_and_dump sampleTFns sampleEFns stBadMode).1
     have hr := (C6_execute_status_and_dump sampleTFns sampleEFns stBadMode).2.1
       (by simp [stBadMode, appDefault, knownModes])
     rw [hd, hr]
     rfl⟩
